import Mathlib

/-!
# Verification of the Spimex trading-results service (cache / query / scheduler core)

Shallow embedding of the repository's `app/` package:

* `app/main.py`   — endpoint handlers, cache keys, the 14:11 daily-cutover logic
  (`get_seconds_until_flush`, `schedule_cache_flush`);
* `app/cache.py`  — Redis cache client (`get_cache`, `set_cache`, `flush_cache`);
* `app/crud.py`   — the three query shapes over the trading-record table.

Python `datetime` values are embedded as a total count of microseconds since
0001-01-01 00:00:00 (so `date.toordinal() = day + 1`); Python's lexicographic
comparison of `datetime` fields coincides with comparison of these totals.
`timedelta.total_seconds()` followed by `int(...)` on a non-negative span is
floor division of the microsecond span by 10^6 (the float division of an exact
integer microsecond count below 2^53 by 10^6 is correctly rounded, and the
10^-6 gap to the next integer is far above one ulp at this magnitude, so the
truncation agrees with exact floor division).
-/

set_option maxRecDepth 4000

namespace Spimex

/-- Microseconds per second. -/
def usPerSec : Nat := 1000000

/-- Microseconds per day. -/
def usPerDay : Nat := 86400000000

/-- The daily cache-flush cutover, `time(14, 11)` from `app/main.py`, as
microseconds after midnight: `(14*3600 + 11*60) * 10^6`. -/
def flushMicros : Nat := 51060000000

/-- Embedding of a Python `datetime`: total microseconds since
0001-01-01 00:00:00. -/
structure PyDateTime where
  total : Nat
deriving DecidableEq, Repr

/-- `d.date()` as a day number (days since 0001-01-01, i.e. `toordinal() - 1`). -/
def PyDateTime.day (d : PyDateTime) : Nat := d.total / usPerDay

/-- Time of day in microseconds. -/
def PyDateTime.timeOfDay (d : PyDateTime) : Nat := d.total % usPerDay

/-- `datetime.combine(now.date(), time(14, 11))` from `app/main.py`. -/
def combineFlushTime (now : PyDateTime) : PyDateTime :=
  ⟨now.total / usPerDay * usPerDay + flushMicros⟩

/-- `get_seconds_until_flush` from `app/main.py` (lines 58–70):

    now = datetime.now()
    flush_time = datetime.combine(now.date(), time(14, 11))
    if now > flush_time:
        flush_time += timedelta(days=1)
    wait_seconds = (flush_time - now).total_seconds()
    return int(wait_seconds)

`now` is a parameter here; `timedelta(days=1)` adds `usPerDay`; the final
`int(total_seconds())` is floor division of the microsecond span by 10^6. -/
def get_seconds_until_flush (now : PyDateTime) : Nat :=
  let flush_time := combineFlushTime now
  let flush_time := if now.total > flush_time.total
    then (⟨flush_time.total + usPerDay⟩ : PyDateTime) else flush_time
  (flush_time.total - now.total) / usPerSec

/-- A time instant (total microseconds) lying exactly on the daily 14:11
cutover. -/
def IsCutover (t : Nat) : Prop := t % usPerDay = flushMicros

instance (t : Nat) : Decidable (IsCutover t) := by
  unfold IsCutover; infer_instance

/-- The first cutover instant at or after `t`, as the code computes it: a
`now` lying exactly on the cutover is treated as *before* (today's) cutover,
because `app/main.py` rolls to tomorrow only when `now > flush_time` strictly. -/
def nextCutover (t : Nat) : Nat :=
  if t % usPerDay ≤ flushMicros then t / usPerDay * usPerDay + flushMicros
  else (t / usPerDay + 1) * usPerDay + flushMicros

/-! ### Rendering of request parameters in cache keys (`app/main.py` f-strings)

The cache keys are Python f-strings, so each parameter is rendered with
`str(...)`: `None` renders as `"None"`, a string renders as itself, an `int`
renders in decimal, and a `datetime` renders as
`YYYY-MM-DD HH:MM:SS[.ffffff]`.  The calendar conversion between day numbers
(`toordinal() - 1`) and `(year, month, day)` triples uses the standard
Gregorian era decomposition, shifted by 2400 years so that all arithmetic
stays in `Nat` for every representable Python date. -/

/-- Render `n` left-padded with zeros to width `w`. -/
def padNum (w n : Nat) : String :=
  let s := toString n
  String.mk (List.replicate (w - s.length) '0') ++ s

/-- Gregorian `(year, month, day)` of a day number (days since 0001-01-01). -/
def dayToYMD (day : Nat) : Nat × Nat × Nat :=
  let z := day + 876888
  let era := z / 146097
  let doe := z % 146097
  let yoe := (doe - doe / 1460 + doe / 36524 - doe / 146096) / 365
  let y := yoe + era * 400
  let doy := doe - (365 * yoe + yoe / 4 - yoe / 100)
  let mp := (5 * doy + 2) / 153
  let d := doy - (153 * mp + 2) / 5 + 1
  let m := if mp < 10 then mp + 3 else mp - 9
  ((if m ≤ 2 then y + 1 else y) - 2400, m, d)

/-- Day number (days since 0001-01-01) of a Gregorian `(year, month, day)`;
inverse of `dayToYMD` for valid dates with `year ≥ 1`. -/
def ymdToDay (y m d : Nat) : Nat :=
  let y2 := y + 2400
  let yAdj := if m ≤ 2 then y2 - 1 else y2
  let era := yAdj / 400
  let yoe := yAdj % 400
  let mp := if 2 < m then m - 3 else m + 9
  let doy := (153 * mp + 2) / 5 + d - 1
  let doe := yoe * 365 + yoe / 4 - yoe / 100 + doy
  era * 146097 + doe - 876888

/-- `date.isoformat()`: `YYYY-MM-DD`. -/
def isoDateOfDay (day : Nat) : String :=
  let ymd := dayToYMD day
  padNum 4 ymd.1 ++ "-" ++ padNum 2 ymd.2.1 ++ "-" ++ padNum 2 ymd.2.2

/-- The time-of-day part of `str(datetime)`: `HH:MM:SS`, with `.ffffff`
appended only when the microsecond field is non-zero. -/
def pyStrTimeOfDay (tod : Nat) : String :=
  let h := tod / 3600000000
  let mi := tod % 3600000000 / 60000000
  let s := tod % 60000000 / 1000000
  let us := tod % 1000000
  padNum 2 h ++ ":" ++ padNum 2 mi ++ ":" ++ padNum 2 s
    ++ (if us = 0 then "" else "." ++ padNum 6 us)

/-- `str(datetime)`: date and time separated by a space. -/
def pyStrDateTime (t : PyDateTime) : String :=
  isoDateOfDay t.day ++ " " ++ pyStrTimeOfDay t.timeOfDay

/-- `str()` of an `Optional[str]` parameter as interpolated by an f-string:
`None` renders as `"None"`, a present string renders verbatim. -/
def pyStrOptStr : Option String → String
  | none => "None"
  | some s => s

/-- `str()` of an `Optional[datetime]` parameter as interpolated by an
f-string. -/
def pyStrOptDateTime : Option PyDateTime → String
  | none => "None"
  | some t => pyStrDateTime t

/-- Cache key of `/get_last_trading_dates` (`app/main.py` line 99):
`f"last_trading_dates:{limit}"`. -/
def last_trading_dates_cache_key (limit : Nat) : String :=
  "last_trading_dates:" ++ toString limit

/-- Cache key of `/get_dynamics` (`app/main.py` line 158):
`f"dynamics:{oil_id}:{delivery_type_id}:{delivery_basis_id}:{start_date}:{end_date}"`. -/
def dynamics_cache_key (oil_id delivery_type_id delivery_basis_id : Option String)
    (start_date end_date : Option PyDateTime) : String :=
  "dynamics:" ++ pyStrOptStr oil_id ++ ":" ++ pyStrOptStr delivery_type_id ++ ":"
    ++ pyStrOptStr delivery_basis_id ++ ":" ++ pyStrOptDateTime start_date ++ ":"
    ++ pyStrOptDateTime end_date

/-- Cache key of `/get_trading_results` (`app/main.py` line 227):
`f"trading_results:{oil_id}:{delivery_type_id}:{delivery_basis_id}:{limit}"`. -/
def trading_results_cache_key (oil_id delivery_type_id delivery_basis_id : Option String)
    (limit : Nat) : String :=
  "trading_results:" ++ pyStrOptStr oil_id ++ ":" ++ pyStrOptStr delivery_type_id ++ ":"
    ++ pyStrOptStr delivery_basis_id ++ ":" ++ toString limit

/-- Decimal decoding, used to recover a number from its `toString` image. -/
def decodeDigits (cs : List Char) : Nat :=
  cs.foldl (fun acc c => acc * 10 + (c.toNat - 48)) 0

/-! ### Data model (`app/models.py`) and query layer (`app/crud.py`)

The `spimex_trading_results_async` row.  The two `Float` columns (`volume`,
`total`) are modelled atomically as integers: no code under verification
performs any arithmetic or comparison on them, they are only carried along
and (de)serialized.  `app/schemas.py`'s `TradingResult` has exactly the same
thirteen fields and `from_orm` copies them field for field, so one structure
embeds both the ORM row and the Pydantic schema. -/

structure SpimexTradingResultAsync where
  pk_spimex_id : Int
  exchange_product_id : String
  exchange_product_name : Option String
  oil_id : Option String
  delivery_basis_id : Option String
  delivery_basis_name : Option String
  delivery_type_id : Option String
  volume : Option Int
  total : Option Int
  count : Option Int
  date : PyDateTime
  created_on : PyDateTime
  updated_on : PyDateTime
deriving DecidableEq, Repr

/-- `schemas.TradingResult` (see the structure comment above). -/
abbrev TradingResult := SpimexTradingResultAsync

/-- Descending order on `datetime` values (`ORDER BY date DESC` on the raw
column). -/
def dtDesc (a b : PyDateTime) : Prop := b.total ≤ a.total

instance : DecidableRel dtDesc := fun a b => by unfold dtDesc; infer_instance

instance : IsTotal PyDateTime dtDesc :=
  ⟨fun a b => Nat.le_total b.total a.total⟩

instance : IsTrans PyDateTime dtDesc :=
  ⟨fun _ _ _ hab hbc => Nat.le_trans hbc hab⟩

/-- Descending order on rows by trading date (`ORDER BY date DESC`). -/
def rowDateDesc (a b : SpimexTradingResultAsync) : Prop := b.date.total ≤ a.date.total

instance : DecidableRel rowDateDesc := fun a b => by unfold rowDateDesc; infer_instance

instance : IsTotal SpimexTradingResultAsync rowDateDesc :=
  ⟨fun a b => Nat.le_total b.date.total a.date.total⟩

instance : IsTrans SpimexTradingResultAsync rowDateDesc :=
  ⟨fun _ _ _ hab hbc => Nat.le_trans hbc hab⟩

/-- Python truthiness of an `Optional[str]` filter parameter as used in
`if oil_id:` — `None` and the empty string are falsy, so only a present,
non-empty string activates a filter. -/
def strFilterActive : Option String → Bool
  | none => false
  | some s => !(s == "")

namespace crud

/-- `crud.get_last_trading_dates` (`app/crud.py` lines 13–31):
`select(date).distinct().order_by(date.desc()).limit(limit)` over the raw
`DateTime` column, then `row[0].date()` on each fetched row.  The SQL
`DISTINCT` therefore de-duplicates full *datetimes*; the truncation to a
calendar date happens only afterwards, in Python. -/
def get_last_trading_dates (db : List SpimexTradingResultAsync) (limit : Nat) :
    List Nat :=
  ((((db.map (fun r => r.date)).dedup).insertionSort dtDesc).take limit).map
    PyDateTime.day

/-- The filter list built by `crud.get_dynamics` (`app/crud.py` lines 58–75):
each parameter contributes a conjunct only when truthy; SQL equality against
a NULL column never matches, hence `r.oil_id == oil_id` on `Option String`. -/
def dynamics_filters (oil_id delivery_type_id delivery_basis_id : Option String)
    (start_date end_date : Option PyDateTime) :
    List (SpimexTradingResultAsync → Bool) :=
  (if strFilterActive oil_id then
      ([fun r => r.oil_id == oil_id] : List (SpimexTradingResultAsync → Bool))
    else [])
    ++ (if strFilterActive delivery_type_id then
        [fun r => r.delivery_type_id == delivery_type_id] else [])
    ++ (if strFilterActive delivery_basis_id then
        [fun r => r.delivery_basis_id == delivery_basis_id] else [])
    ++ (match start_date with
        | some d => [fun r => d.total ≤ r.date.total]
        | none => [])
    ++ (match end_date with
        | some d => [fun r => r.date.total ≤ d.total]
        | none => [])

/-- `crud.get_dynamics` (`app/crud.py` lines 34–85): WHERE the conjunction of
the active filters (an empty filter list constrains nothing), then
`ORDER BY date DESC`, no limit. -/
def get_dynamics (db : List SpimexTradingResultAsync)
    (oil_id delivery_type_id delivery_basis_id : Option String)
    (start_date end_date : Option PyDateTime) : List SpimexTradingResultAsync :=
  (db.filter (fun r =>
    (dynamics_filters oil_id delivery_type_id delivery_basis_id
      start_date end_date).all (fun f => f r))).insertionSort rowDateDesc

/-- The filter list built by `crud.get_trading_results` (`app/crud.py`
lines 111–121): the same three code filters, no date range. -/
def trading_results_filters (oil_id delivery_type_id delivery_basis_id : Option String) :
    List (SpimexTradingResultAsync → Bool) :=
  (if strFilterActive oil_id then
      ([fun r => r.oil_id == oil_id] : List (SpimexTradingResultAsync → Bool))
    else [])
    ++ (if strFilterActive delivery_type_id then
        [fun r => r.delivery_type_id == delivery_type_id] else [])
    ++ (if strFilterActive delivery_basis_id then
        [fun r => r.delivery_basis_id == delivery_basis_id] else [])

/-- `crud.get_trading_results` (`app/crud.py` lines 88–134): WHERE the
conjunction of the active filters, `ORDER BY date DESC`, `LIMIT limit`. -/
def get_trading_results (db : List SpimexTradingResultAsync)
    (oil_id delivery_type_id delivery_basis_id : Option String)
    (limit : Nat) : List SpimexTradingResultAsync :=
  ((db.filter (fun r =>
    (trading_results_filters oil_id delivery_type_id delivery_basis_id).all
      (fun f => f r))).insertionSort rowDateDesc).take limit

end crud

/-- A sample row used by concrete counterexamples and witnesses; only the
trading date varies. -/
def sampleRow (d : PyDateTime) : SpimexTradingResultAsync :=
  { pk_spimex_id := 1
    exchange_product_id := "EP1"
    exchange_product_name := none
    oil_id := none
    delivery_basis_id := none
    delivery_basis_name := none
    delivery_type_id := none
    volume := none
    total := none
    count := none
    date := d
    created_on := ⟨0⟩
    updated_on := ⟨0⟩ }

/-! ### Python values and JSON (`app/cache.py`)

`PyValue` embeds the Python values that flow through the cache layer:
strings, ints, bools, `None`, `datetime` objects (inside `.dict()` payloads
before serialization), lists and (string-keyed) dicts.  JSON floats are not
modelled: the code under verification never constructs or inspects numeric
cache payloads other than ints, and no claim depends on float arithmetic.
`jsonLoads` accordingly rejects number tokens containing `.`/`e`, treating
such payloads as non-JSON. -/

inductive PyValue where
  | str (s : String)
  | int (n : Int)
  | bool (b : Bool)
  | null
  | dt (t : PyDateTime)
  | list (xs : List PyValue)
  | dict (kvs : List (String × PyValue))
deriving Repr

/-- Python truthiness (`if cached:` / `if value:`). -/
def pyTruthy : PyValue → Bool
  | .str s => !(s == "")
  | .int n => !(n == 0)
  | .bool b => b
  | .null => false
  | .dt _ => true
  | .list xs => !xs.isEmpty
  | .dict kvs => !kvs.isEmpty

/-- `datetime.isoformat()`: `YYYY-MM-DDTHH:MM:SS[.ffffff]` (the
`CustomJSONEncoder` in `app/cache.py` serializes `date`/`datetime` this way). -/
def isoDateTime (t : PyDateTime) : String :=
  isoDateOfDay t.day ++ "T" ++ pyStrTimeOfDay t.timeOfDay

def jsonEscapeChar (c : Char) : String :=
  if c = '"' then "\\\""
  else if c = '\\' then "\\\\"
  else if c = '\n' then "\\n"
  else if c = '\t' then "\\t"
  else if c = '\r' then "\\r"
  else String.singleton c

def jsonQuote (s : String) : String :=
  "\"" ++ String.join (s.data.map jsonEscapeChar) ++ "\""

mutual

/-- `json.dumps(..., cls=CustomJSONEncoder)` with default separators. -/
def jsonDumps : PyValue → String
  | .str s => jsonQuote s
  | .int n => toString n
  | .bool b => if b then "true" else "false"
  | .null => "null"
  | .dt t => jsonQuote (isoDateTime t)
  | .list xs => "[" ++ jsonDumpsList xs ++ "]"
  | .dict kvs => "\x7b" ++ jsonDumpsKVs kvs ++ "\x7d"

def jsonDumpsList : List PyValue → String
  | [] => ""
  | [x] => jsonDumps x
  | x :: y :: xs => jsonDumps x ++ ", " ++ jsonDumpsList (y :: xs)

def jsonDumpsKVs : List (String × PyValue) → String
  | [] => ""
  | [kv] => jsonQuote kv.1 ++ ": " ++ jsonDumps kv.2
  | kv :: kv2 :: xs => jsonQuote kv.1 ++ ": " ++ jsonDumps kv.2 ++ ", "
      ++ jsonDumpsKVs (kv2 :: xs)

end

/-- JSON whitespace. -/
def isJsonWs (c : Char) : Bool :=
  c = ' ' || c = '\n' || c = '\t' || c = '\r'

def skipWs (cs : List Char) : List Char := cs.dropWhile isJsonWs

def isDigitChar (c : Char) : Bool := '0' ≤ c && c ≤ '9'

/-- Parse a run of decimal digits. -/
def takeDigits (cs : List Char) : List Char × List Char :=
  (cs.takeWhile isDigitChar, cs.dropWhile isDigitChar)

/-- A JSON integer token: a digit run not followed by `.`/`e`/`E` (floats are
outside the model; see the section comment), with no superfluous leading
zero. -/
def parseJsonNat (cs : List Char) : Option (Nat × List Char) :=
  match takeDigits cs with
  | ([], _) => none
  | (ds, rest) =>
    match rest with
    | c :: _ =>
      if c = '.' || c = 'e' || c = 'E' then none
      else if ds.length > 1 && ds.headD '0' = '0' then none
      else some (decodeDigits ds, rest)
    | [] =>
      if ds.length > 1 && ds.headD '0' = '0' then none
      else some (decodeDigits ds, rest)

mutual

/-- Recursive-descent JSON parser (`json.loads`); `fuel` strictly decreases
on every nested call and is chosen large enough at the top level.
`PyValue.null` stands for Python's `None`. -/
def parseJsonVal (fuel : Nat) (cs : List Char) : Option (PyValue × List Char) :=
  match fuel with
  | 0 => none
  | fuel + 1 =>
    match skipWs cs with
    | [] => none
    | c :: rest =>
      if c = 'n' then
        match rest with
        | 'u' :: 'l' :: 'l' :: rest2 => some (.null, rest2)
        | _ => none
      else if c = 't' then
        match rest with
        | 'r' :: 'u' :: 'e' :: rest2 => some (.bool true, rest2)
        | _ => none
      else if c = 'f' then
        match rest with
        | 'a' :: 'l' :: 's' :: 'e' :: rest2 => some (.bool false, rest2)
        | _ => none
      else if c = '"' then
        match parseJsonString fuel rest [] with
        | some (s, rest2) => some (.str s, rest2)
        | none => none
      else if c = '[' then
        match skipWs rest with
        | ']' :: rest2 => some (.list [], rest2)
        | _ =>
          match parseJsonArray fuel rest with
          | some (xs, rest2) => some (.list xs, rest2)
          | none => none
      else if c = '\x7b' then
        match skipWs rest with
        | '\x7d' :: rest2 => some (.dict [], rest2)
        | _ =>
          match parseJsonObject fuel rest with
          | some (kvs, rest2) => some (.dict kvs, rest2)
          | none => none
      else if c = '-' then
        match parseJsonNat rest with
        | some (n, rest2) => some (.int (-(n : Int)), rest2)
        | none => none
      else
        match parseJsonNat (c :: rest) with
        | some (n, rest2) => some (.int (n : Int), rest2)
        | none => none

/-- Characters of a JSON string after the opening quote, with the common
escapes; `\u` escapes are not modelled and make the payload parse as
non-JSON. -/
def parseJsonString (fuel : Nat) (cs : List Char) (acc : List Char) :
    Option (String × List Char) :=
  match fuel with
  | 0 => none
  | fuel + 1 =>
    match cs with
    | [] => none
    | '"' :: rest => some (String.mk acc.reverse, rest)
    | '\\' :: e :: rest =>
      let dec : Option Char :=
        if e = '"' then some '"'
        else if e = '\\' then some '\\'
        else if e = '/' then some '/'
        else if e = 'n' then some '\n'
        else if e = 't' then some '\t'
        else if e = 'r' then some '\r'
        else if e = 'b' then some (Char.ofNat 8)
        else if e = 'f' then some (Char.ofNat 12)
        else none
      match dec with
      | some d => parseJsonString fuel rest (d :: acc)
      | none => none
    | c :: rest =>
      if c.toNat < 32 then none else parseJsonString fuel rest (c :: acc)

/-- Elements of a JSON array after the opening bracket (non-empty case). -/
def parseJsonArray (fuel : Nat) (cs : List Char) :
    Option (List PyValue × List Char) :=
  match fuel with
  | 0 => none
  | fuel + 1 =>
    match parseJsonVal fuel cs with
    | none => none
    | some (v, rest) =>
      match skipWs rest with
      | ',' :: rest2 =>
        match parseJsonArray fuel rest2 with
        | some (vs, rest3) => some (v :: vs, rest3)
        | none => none
      | ']' :: rest2 => some ([v], rest2)
      | _ => none

/-- Members of a JSON object after the opening brace (non-empty case). -/
def parseJsonObject (fuel : Nat) (cs : List Char) :
    Option (List (String × PyValue) × List Char) :=
  match fuel with
  | 0 => none
  | fuel + 1 =>
    match skipWs cs with
    | '"' :: rest =>
      match parseJsonString fuel rest [] with
      | none => none
      | some (k, rest2) =>
        match skipWs rest2 with
        | ':' :: rest3 =>
          match parseJsonVal fuel rest3 with
          | none => none
          | some (v, rest4) =>
            match skipWs rest4 with
            | ',' :: rest5 =>
              match parseJsonObject fuel rest5 with
              | some (kvs, rest6) => some ((k, v) :: kvs, rest6)
              | none => none
            | '\x7d' :: rest5 => some ([(k, v)], rest5)
            | _ => none
        | _ => none
    | _ => none

end

/-- `json.loads`: parse the whole payload, allowing surrounding whitespace. -/
def jsonLoads (s : String) : Option PyValue :=
  match parseJsonVal (2 * s.length + 4) s.data with
  | some (v, rest) => if (skipWs rest).isEmpty then some v else none
  | none => none

/-! ### The Redis store and the cache client (`app/cache.py`)

The store is an association list of entries with absolute write time
(microseconds) and TTL (seconds); a `reachable` flag models whether the
connection attempt of `get_redis_pool` succeeds.  `set_cache`/`get_cache`/
`flush_cache` keep the flag unchanged (a per-call connection outcome).

`set_cache` forwards `ex=expire` verbatim to the client (`aioredis` 2.x, the
redis-py API): for `expire = 0` the server rejects `SET ... EX 0` as an
invalid expire time, the raised error is swallowed by the surrounding
`except`, and nothing is stored — despite the function's own docstring
declaring `0` to mean "no expiry".  Likewise the client raises `DataError`
for `bool`/`None` values (which pass the `isinstance` check unserialized),
also swallowed. -/

structure RedisEntry where
  key : String
  val : String
  writeTime : Nat
  ttl : Nat
deriving DecidableEq, Repr

structure RedisState where
  reachable : Bool
  entries : List RedisEntry
deriving DecidableEq, Repr

/-- An entry is visible at time `t` if it has no TTL or has not yet expired. -/
def redisVisible (t : Nat) (e : RedisEntry) : Bool :=
  e.ttl == 0 || decide (t < e.writeTime + e.ttl * usPerSec)

/-- `GET key` at time `t`. -/
def redisLookup (st : RedisState) (t : Nat) (key : String) : Option String :=
  match st.entries.find? (fun e => e.key == key) with
  | some e => if redisVisible t e then some e.val else none
  | none => none

/-- `SET key val EX ttl` at time `t` (overwrites any previous entry). -/
def redisSet (st : RedisState) (t : Nat) (key val : String) (ttl : Nat) :
    RedisState :=
  { st with entries :=
      ⟨key, val, t, ttl⟩ :: st.entries.filter (fun e => !(e.key == key)) }

/-- `set_cache` (`app/cache.py` lines 44–63). -/
def set_cache (st : RedisState) (t : Nat) (key : String) (value : PyValue)
    (expire : Nat) : RedisState :=
  if !st.reachable then st
  else
    match value with
    | .bool _ => st
    | .null => st
    | .str s => if expire = 0 then st else redisSet st t key s expire
    | .int n => if expire = 0 then st else redisSet st t key (toString n) expire
    | v => if expire = 0 then st else redisSet st t key (jsonDumps v) expire

/-- `get_cache` (`app/cache.py` lines 66–90): absent when unreachable or
missing; an empty stored string is falsy (`if value:`); a JSON payload is
deserialized (`"null"` loads to Python `None`, i.e. absent); a non-JSON
payload is returned as the raw string. -/
def get_cache (st : RedisState) (t : Nat) (key : String) : Option PyValue :=
  if !st.reachable then none
  else
    match redisLookup st t key with
    | none => none
    | some s =>
      if s == "" then none
      else
        match jsonLoads s with
        | some .null => none
        | some v => some v
        | none => some (.str s)

/-- `flush_cache` (`app/cache.py` lines 93–105): `FLUSHALL`, a no-op when
the store is unreachable. -/
def flush_cache (st : RedisState) : RedisState :=
  if !st.reachable then st else { st with entries := [] }

/-! ### Parsing cached payloads back into response shapes (`app/main.py`)

`datetime.fromisoformat` accepts the strings the code itself produces:
`YYYY-MM-DD`, optionally followed by a one-character separator and
`HH:MM[:SS[.fff|.ffffff]]`.  Pydantic v1's `ValidationError` subclasses
`ValueError`; unpacking `**item` of a non-mapping raises `TypeError`. -/

inductive PyErr where
  | valueError
  | typeError
deriving DecidableEq, Repr

def digitVal (c : Char) : Option Nat :=
  if isDigitChar c then some (c.toNat - 48) else none

def daysInMonth (y m : Nat) : Nat :=
  if m = 2 then
    (if (y % 4 = 0 && !(y % 100 = 0)) || y % 400 = 0 then 29 else 28)
  else if m = 4 || m = 6 || m = 9 || m = 11 then 30 else 31

/-- Time-of-day microseconds from the characters after the date part. -/
def parseIsoTime (cs : List Char) : Option Nat := do
  match cs with
  | h1 :: h2 :: ':' :: m1 :: m2 :: rest => do
    let h ← digitVal h1
    let h2v ← digitVal h2
    let mi ← digitVal m1
    let mi2 ← digitVal m2
    let hh := h * 10 + h2v
    let mm := mi * 10 + mi2
    if hh ≥ 24 || mm ≥ 60 then none
    else
      let base := hh * 3600000000 + mm * 60000000
      match rest with
      | [] => some base
      | ':' :: s1 :: s2 :: rest2 => do
        let sv1 ← digitVal s1
        let sv2 ← digitVal s2
        let ss := sv1 * 10 + sv2
        if ss ≥ 60 then none
        else
          let base2 := base + ss * 1000000
          match rest2 with
          | [] => some base2
          | '.' :: f1 :: f2 :: f3 :: f4 :: f5 :: f6 :: [] => do
            let a ← digitVal f1
            let b ← digitVal f2
            let c ← digitVal f3
            let d ← digitVal f4
            let e ← digitVal f5
            let f ← digitVal f6
            some (base2 + a * 100000 + b * 10000 + c * 1000 + d * 100 + e * 10 + f)
          | '.' :: f1 :: f2 :: f3 :: [] => do
            let a ← digitVal f1
            let b ← digitVal f2
            let c ← digitVal f3
            some (base2 + (a * 100 + b * 10 + c) * 1000)
          | _ => none
      | _ => none
  | _ => none

/-- `datetime.fromisoformat`. -/
def fromisoformat (s : String) : Option PyDateTime := do
  match s.data with
  | y1 :: y2 :: y3 :: y4 :: '-' :: m1 :: m2 :: '-' :: d1 :: d2 :: rest => do
    let a ← digitVal y1
    let b ← digitVal y2
    let c ← digitVal y3
    let d ← digitVal y4
    let e ← digitVal m1
    let f ← digitVal m2
    let g ← digitVal d1
    let h ← digitVal d2
    let y := a * 1000 + b * 100 + c * 10 + d
    let m := e * 10 + f
    let dd := g * 10 + h
    if y = 0 || m = 0 || m > 12 || dd = 0 || dd > daysInMonth y m then none
    else
      match rest with
      | [] => some ⟨ymdToDay y m dd * usPerDay⟩
      | _sep :: timeCs => do
        let tod ← parseIsoTime timeCs
        some ⟨ymdToDay y m dd * usPerDay + tod⟩
  | _ => none

/-- The date-parsing loop of `/get_last_trading_dates`
(`app/main.py` line 105) applied to one iterated element:
`datetime.fromisoformat(x).date()`.  A non-string element raises
`TypeError` (uncaught by the handler's `except ValueError`); a string that
is not ISO raises `ValueError`. -/
def parseDateElem : PyValue → Except PyErr Nat
  | .str s =>
    match fromisoformat s with
    | some t => .ok t.day
    | none => .error .valueError
  | _ => .error .typeError

/-- `[datetime.fromisoformat(x).date() for x in cached]` with Python's
iteration semantics: a list iterates its elements, a string its characters,
a dict its keys; anything else is not iterable (`TypeError`). -/
def parseDateListFromCache : PyValue → Except PyErr (List Nat)
  | .list xs => xs.mapM parseDateElem
  | .str s => s.data.mapM (fun c => parseDateElem (.str (String.singleton c)))
  | .dict kvs => kvs.mapM (fun kv => parseDateElem (.str kv.1))
  | _ => .error .typeError

def lookupKV (kvs : List (String × PyValue)) (k : String) : Option PyValue :=
  (kvs.find? (fun kv => kv.1 == k)).map (fun kv => kv.2)

/-- Pydantic v1, required `str` field (ints are coerced to their decimal
string; other shapes raise `ValidationError`, a `ValueError`). -/
def fieldReqStr (kvs : List (String × PyValue)) (k : String) :
    Except PyErr String :=
  match lookupKV kvs k with
  | some (.str s) => .ok s
  | some (.int n) => .ok (toString n)
  | _ => .error .valueError

/-- Pydantic v1, optional `str` field defaulting to `None`. -/
def fieldOptStr (kvs : List (String × PyValue)) (k : String) :
    Except PyErr (Option String) :=
  match lookupKV kvs k with
  | none => .ok none
  | some .null => .ok none
  | some (.str s) => .ok (some s)
  | some (.int n) => .ok (some (toString n))
  | some _ => .error .valueError

/-- Pydantic v1, optional numeric field (numeric payloads written by this
app are always ints; other shapes raise). -/
def fieldOptInt (kvs : List (String × PyValue)) (k : String) :
    Except PyErr (Option Int) :=
  match lookupKV kvs k with
  | none => .ok none
  | some .null => .ok none
  | some (.int n) => .ok (some n)
  | some _ => .error .valueError

/-- Pydantic v1, required `int` field. -/
def fieldReqInt (kvs : List (String × PyValue)) (k : String) :
    Except PyErr Int :=
  match lookupKV kvs k with
  | some (.int n) => .ok n
  | _ => .error .valueError

/-- Pydantic v1, required `datetime` field: a `datetime` object or an ISO
string. -/
def fieldReqDateTime (kvs : List (String × PyValue)) (k : String) :
    Except PyErr PyDateTime :=
  match lookupKV kvs k with
  | some (.dt t) => .ok t
  | some (.str s) =>
    match fromisoformat s with
    | some t => .ok t
    | none => .error .valueError
  | _ => .error .valueError

/-- `schemas.TradingResult(**item)`: `item` must be a mapping (`TypeError`
otherwise); then pydantic validates every field (`ValidationError`, a
`ValueError`, on failure). -/
def parseTradingResult (v : PyValue) : Except PyErr TradingResult :=
  match v with
  | .dict kvs => do
    let exchange_product_id ← fieldReqStr kvs "exchange_product_id"
    let exchange_product_name ← fieldOptStr kvs "exchange_product_name"
    let oil_id ← fieldOptStr kvs "oil_id"
    let delivery_basis_id ← fieldOptStr kvs "delivery_basis_id"
    let delivery_basis_name ← fieldOptStr kvs "delivery_basis_name"
    let delivery_type_id ← fieldOptStr kvs "delivery_type_id"
    let volume ← fieldOptInt kvs "volume"
    let total ← fieldOptInt kvs "total"
    let count ← fieldOptInt kvs "count"
    let date ← fieldReqDateTime kvs "date"
    let pk_spimex_id ← fieldReqInt kvs "pk_spimex_id"
    let created_on ← fieldReqDateTime kvs "created_on"
    let updated_on ← fieldReqDateTime kvs "updated_on"
    .ok { pk_spimex_id, exchange_product_id, exchange_product_name, oil_id,
          delivery_basis_id, delivery_basis_name, delivery_type_id,
          volume, total, count, date, created_on, updated_on }
  | _ => .error .typeError

/-- `[TradingResult(**item) for item in cached]` with Python's iteration
semantics (see `parseDateListFromCache`). -/
def parseTradingResultList : PyValue → Except PyErr (List TradingResult)
  | .list xs => xs.mapM parseTradingResult
  | .str s => s.data.mapM (fun c => parseTradingResult (.str (String.singleton c)))
  | .dict kvs => kvs.mapM (fun kv => parseTradingResult (.str kv.1))
  | _ => .error .typeError

def optStrVal : Option String → PyValue
  | none => .null
  | some s => .str s

def optIntVal : Option Int → PyValue
  | none => .null
  | some n => .int n

/-- `TradingResult.dict()` in pydantic declaration order: the base-class
fields, then the subclass fields. -/
def tradingResultToPyDict (r : TradingResult) : PyValue :=
  .dict [("exchange_product_id", .str r.exchange_product_id),
    ("exchange_product_name", optStrVal r.exchange_product_name),
    ("oil_id", optStrVal r.oil_id),
    ("delivery_basis_id", optStrVal r.delivery_basis_id),
    ("delivery_basis_name", optStrVal r.delivery_basis_name),
    ("delivery_type_id", optStrVal r.delivery_type_id),
    ("volume", optIntVal r.volume),
    ("total", optIntVal r.total),
    ("count", optIntVal r.count),
    ("date", .dt r.date),
    ("pk_spimex_id", .int r.pk_spimex_id),
    ("created_on", .dt r.created_on),
    ("updated_on", .dt r.updated_on)]

/-! ### The endpoint handlers (`app/main.py`)

Each handler is a function of the cache state, the current time, the record
store and the request parameters, returning either an uncaught Python
exception or the response body together with the cache state after the
request.  The `..._db_path` helpers are the shared fall-through tail of each
handler: query the store, serialize, `set_cache` with
`expire=get_seconds_until_flush()`, return. -/

namespace main

def last_trading_dates_db_path (st : RedisState) (now : PyDateTime)
    (db : List SpimexTradingResultAsync) (limit : Nat) :
    Except PyErr (List Nat × RedisState) :=
  let dates := crud.get_last_trading_dates db limit
  let payload := PyValue.list (dates.map (fun d => .str (isoDateOfDay d)))
  let st2 := set_cache st now.total (last_trading_dates_cache_key limit) payload
      (get_seconds_until_flush now)
  .ok (dates, st2)

/-- `/get_last_trading_dates` (`app/main.py` lines 79–120).  On a truthy
cached value the handler rebuilds the dates; only `ValueError` is caught
(triggering `flush_cache` and the database fall-through) — a `TypeError`
from a non-string element propagates out of the handler. -/
def get_last_trading_dates (st : RedisState) (now : PyDateTime)
    (db : List SpimexTradingResultAsync) (limit : Nat) :
    Except PyErr (List Nat × RedisState) :=
  match get_cache st now.total (last_trading_dates_cache_key limit) with
  | some cached =>
    if pyTruthy cached then
      match parseDateListFromCache cached with
      | .ok dates => .ok (dates, st)
      | .error .valueError => last_trading_dates_db_path (flush_cache st) now db limit
      | .error .typeError => .error .typeError
    else last_trading_dates_db_path st now db limit
  | none => last_trading_dates_db_path st now db limit

def dynamics_db_path (st : RedisState) (now : PyDateTime)
    (db : List SpimexTradingResultAsync)
    (oil_id delivery_type_id delivery_basis_id : Option String)
    (start_date end_date : Option PyDateTime) :
    Except PyErr (List TradingResult × RedisState) :=
  let results := crud.get_dynamics db oil_id delivery_type_id delivery_basis_id
      start_date end_date
  let payload := PyValue.list (results.map tradingResultToPyDict)
  let st2 := set_cache st now.total
      (dynamics_cache_key oil_id delivery_type_id delivery_basis_id
        start_date end_date)
      payload (get_seconds_until_flush now)
  .ok (results, st2)

/-- `/get_dynamics` (`app/main.py` lines 129–188).  Any exception while
rebuilding `TradingResult`s from the cached value is caught
(`except Exception`), flushes the whole cache and falls through to the
database. -/
def get_dynamics (st : RedisState) (now : PyDateTime)
    (db : List SpimexTradingResultAsync)
    (oil_id delivery_type_id delivery_basis_id : Option String)
    (start_date end_date : Option PyDateTime) :
    Except PyErr (List TradingResult × RedisState) :=
  match get_cache st now.total
      (dynamics_cache_key oil_id delivery_type_id delivery_basis_id
        start_date end_date) with
  | some cached =>
    if pyTruthy cached then
      match parseTradingResultList cached with
      | .ok results => .ok (results, st)
      | .error _ => dynamics_db_path (flush_cache st) now db oil_id
          delivery_type_id delivery_basis_id start_date end_date
    else dynamics_db_path st now db oil_id delivery_type_id delivery_basis_id
        start_date end_date
  | none => dynamics_db_path st now db oil_id delivery_type_id
      delivery_basis_id start_date end_date

def trading_results_db_path (st : RedisState) (now : PyDateTime)
    (db : List SpimexTradingResultAsync)
    (oil_id delivery_type_id delivery_basis_id : Option String) (limit : Nat) :
    Except PyErr (List TradingResult × RedisState) :=
  let results := crud.get_trading_results db oil_id delivery_type_id
      delivery_basis_id limit
  let payload := PyValue.list (results.map tradingResultToPyDict)
  let st2 := set_cache st now.total
      (trading_results_cache_key oil_id delivery_type_id delivery_basis_id limit)
      payload (get_seconds_until_flush now)
  .ok (results, st2)

/-- `/get_trading_results` (`app/main.py` lines 197–256); cache-corruption
handling as in `/get_dynamics`. -/
def get_trading_results (st : RedisState) (now : PyDateTime)
    (db : List SpimexTradingResultAsync)
    (oil_id delivery_type_id delivery_basis_id : Option String) (limit : Nat) :
    Except PyErr (List TradingResult × RedisState) :=
  match get_cache st now.total
      (trading_results_cache_key oil_id delivery_type_id delivery_basis_id
        limit) with
  | some cached =>
    if pyTruthy cached then
      match parseTradingResultList cached with
      | .ok results => .ok (results, st)
      | .error _ => trading_results_db_path (flush_cache st) now db oil_id
          delivery_type_id delivery_basis_id limit
    else trading_results_db_path st now db oil_id delivery_type_id
        delivery_basis_id limit
  | none => trading_results_db_path st now db oil_id delivery_type_id
      delivery_basis_id limit

end main

/-! ### The cache timeline (`schedule_cache_flush` and per-write TTLs)

A trace interleaves cache writes (each using
`expire = get_seconds_until_flush(now)`, as every handler does) with the
background loop's `flush_cache` firings.  `runCacheTrace` folds it over a
state. -/

inductive CacheEvent where
  | write (now : PyDateTime) (key : String) (v : PyValue)
  | flushAll (now : PyDateTime)

def applyCacheEvent (st : RedisState) : CacheEvent → RedisState
  | .write now key v => set_cache st now.total key v (get_seconds_until_flush now)
  | .flushAll _ => flush_cache st

def runCacheTrace (st : RedisState) (evs : List CacheEvent) : RedisState :=
  evs.foldl applyCacheEvent st

def eventTime : CacheEvent → Nat
  | .write now _ _ => now.total
  | .flushAll now => now.total

theorem nextCutover_isCutover (t : Nat) : IsCutover (nextCutover t) := by
  unfold IsCutover nextCutover usPerDay flushMicros
  split <;> omega

theorem le_nextCutover (t : Nat) : t ≤ nextCutover t := by
  unfold nextCutover usPerDay flushMicros
  have h := Nat.div_add_mod t 86400000000
  split <;> omega

theorem nextCutover_least (t c : Nat) (hc : IsCutover c) (htc : t ≤ c) :
    nextCutover t ≤ c := by
  unfold IsCutover at hc
  unfold nextCutover usPerDay flushMicros at *
  have h := Nat.div_add_mod t 86400000000
  have h2 := Nat.div_add_mod c 86400000000
  rcases Nat.lt_or_ge (c / 86400000000) (t / 86400000000) with hq | hq
  · have : c / 86400000000 * 86400000000 + 86400000000 ≤
        t / 86400000000 * 86400000000 := by
      have := Nat.succ_le_of_lt hq
      calc c / 86400000000 * 86400000000 + 86400000000
          = (c / 86400000000 + 1) * 86400000000 := by ring
        _ ≤ t / 86400000000 * 86400000000 :=
          Nat.mul_le_mul_right _ this
    omega
  · split
    · have := Nat.mul_le_mul_right 86400000000 hq
      omega
    · rcases Nat.lt_or_ge (c / 86400000000) (t / 86400000000 + 1) with hq2 | hq2
      · have : c / 86400000000 = t / 86400000000 := by omega
        omega
      · have := Nat.mul_le_mul_right 86400000000 hq2
        omega

/-- Characterization of the code's wait computation via `nextCutover`. -/
theorem get_seconds_until_flush_eq (now : PyDateTime) :
    get_seconds_until_flush now = (nextCutover now.total - now.total) / usPerSec := by
  unfold get_seconds_until_flush combineFlushTime nextCutover
  simp only [usPerDay, flushMicros, usPerSec]
  have h := Nat.div_add_mod now.total 86400000000
  by_cases hcmp : now.total > now.total / 86400000000 * 86400000000 + 51060000000
  · rw [if_pos hcmp,
      if_neg (by omega : ¬ now.total % 86400000000 ≤ 51060000000)]
    show (now.total / 86400000000 * 86400000000 + 51060000000 + 86400000000
        - now.total) / 1000000 = _
    omega
  · rw [if_neg hcmp, if_pos (by omega : now.total % 86400000000 ≤ 51060000000)]

/-- C1 (counterexample). The claim says that when `now` equals the cutover
instant exactly, the function treats it as "after" and returns the seconds to
tomorrow's cutover (86400). On the code, `if now > flush_time` is false at
equality, so no day is added and the function returns `0` seconds, not 86400:
at `now = 14:11:00.000000` of day 0 the result is `0`. -/
theorem claim1_counterexample :
    get_seconds_until_flush ⟨flushMicros⟩ = 0 ∧ (0 : Nat) ≠ 86400 := by
  constructor
  · decide
  · decide

/-- C1 (amended). For every datetime `now`, `get_seconds_until_flush` returns
the (floor of the) number of seconds from `now` to the *next cutover at or
after `now`*: when `now` is strictly before today's 14:11 cutover this is
today's cutover, when `now` is strictly after it it is tomorrow's, and when
`now` equals the cutover exactly it is treated as "before" (today's cutover,
i.e. the function returns 0) — not "after" as the claim stated.
`nextCutover now.total` is proved to be a cutover instant, at or after `now`,
and least among such. -/
theorem claim1_seconds_until_flush_next_cutover (now : PyDateTime) :
    get_seconds_until_flush now = (nextCutover now.total - now.total) / usPerSec
    ∧ IsCutover (nextCutover now.total)
    ∧ now.total ≤ nextCutover now.total
    ∧ ∀ c, IsCutover c → now.total ≤ c → nextCutover now.total ≤ c :=
  ⟨get_seconds_until_flush_eq now, nextCutover_isCutover now.total,
    le_nextCutover now.total, fun c hc htc => nextCutover_least now.total c hc htc⟩

/-- C1 (witness): the amended theorem instantiated at midnight of day 0;
the inner hypotheses of the minimality conjunct are discharged at the
concrete cutover instant `51060000000`. -/
theorem claim1_witness :
    get_seconds_until_flush ⟨0⟩ = (nextCutover 0 - 0) / usPerSec
    ∧ nextCutover 0 ≤ 51060000000 :=
  ⟨(claim1_seconds_until_flush_next_cutover ⟨0⟩).1,
    (claim1_seconds_until_flush_next_cutover ⟨0⟩).2.2.2 51060000000
      (by decide) (by decide)⟩

/-- C2 (counterexample). The claim says the result is strictly positive for
every `now`; at `now` equal to the cutover instant the code returns `0`. -/
theorem claim2_counterexample :
    ¬ (0 < get_seconds_until_flush ⟨flushMicros⟩) := by
  decide

/-- C2 (amended). For every `now` the result is `< 86400` (this half of the
claim holds), but it is *not* always strictly positive: the result is `0`
exactly when `now` lies within the final second up to and including today's
cutover (time of day in `(14:10:59.000001, 14:11:00.000000]` — i.e. at most
the cutover and within 10^6 microseconds of it); everywhere else it is
strictly positive. -/
theorem claim2_range (now : PyDateTime) :
    get_seconds_until_flush now < 86400
    ∧ (get_seconds_until_flush now = 0 ↔
        now.total % usPerDay ≤ flushMicros
        ∧ flushMicros < now.total % usPerDay + usPerSec) := by
  rw [get_seconds_until_flush_eq]
  unfold nextCutover
  simp only [usPerDay, flushMicros, usPerSec]
  have h := Nat.div_add_mod now.total 86400000000
  split
  · omega
  · omega

theorem string_append_cancel_left {a x y : String} (h : a ++ x = a ++ y) : x = y := by
  have hd := congrArg String.data h
  simp only [String.data_append] at hd
  exact String.ext (List.append_cancel_left hd)

theorem decode_toString_lt101 : ∀ n, n < 101 → decodeDigits (toString n).data = n := by
  decide

theorem toString_inj_lt101 {l1 l2 : Nat} (h1 : l1 < 101) (h2 : l2 < 101)
    (h : (toString l1).data = (toString l2).data) : l1 = l2 :=
  calc l1 = decodeDigits (toString l1).data := (decode_toString_lt101 l1 h1).symm
    _ = decodeDigits (toString l2).data := congrArg decodeDigits h
    _ = l2 := decode_toString_lt101 l2 h2

/-- C3 (counterexample). The claim says a filter being omitted versus present
always yields different cache keys.  But a present filter whose value is the
literal string `"None"` renders in the f-string exactly like the omitted
filter (Python's `str(None)`), so the two requests collide on the same key. -/
theorem claim3_counterexample :
    trading_results_cache_key (some "None") none none 10
      = trading_results_cache_key none none none 10
    ∧ (some "None" : Option String) ≠ none := by
  exact ⟨rfl, by decide⟩

/-- C3 (amended). Cache-key derivation is a pure function of the rendered
parameter strings, and per query shape, a difference in any *single*
parameter's string rendering yields different keys (limits 1–100 always
render differently, so differing limits give different keys).  However, two
different parameter *values* can share a rendering: an omitted optional
filter renders as `"None"`, identically to a present filter with literal
value `"None"` — in that one case the claim's omitted-vs-present clause
fails (see the counterexample). -/
theorem claim3_cache_key_injectivity :
    (∀ o t b l1 l2, l1 < 101 → l2 < 101 → l1 ≠ l2 →
      trading_results_cache_key o t b l1 ≠ trading_results_cache_key o t b l2)
    ∧ (∀ l1 l2, l1 < 101 → l2 < 101 → l1 ≠ l2 →
      last_trading_dates_cache_key l1 ≠ last_trading_dates_cache_key l2)
    ∧ (∀ o o2 t b sd ed, pyStrOptStr o ≠ pyStrOptStr o2 →
      dynamics_cache_key o t b sd ed ≠ dynamics_cache_key o2 t b sd ed)
    ∧ (∀ o t t2 b sd ed, pyStrOptStr t ≠ pyStrOptStr t2 →
      dynamics_cache_key o t b sd ed ≠ dynamics_cache_key o t2 b sd ed)
    ∧ (∀ o t b b2 sd ed, pyStrOptStr b ≠ pyStrOptStr b2 →
      dynamics_cache_key o t b sd ed ≠ dynamics_cache_key o t b2 sd ed)
    ∧ (∀ o t b sd sd2 ed, pyStrOptDateTime sd ≠ pyStrOptDateTime sd2 →
      dynamics_cache_key o t b sd ed ≠ dynamics_cache_key o t b sd2 ed)
    ∧ (∀ o t b sd ed ed2, pyStrOptDateTime ed ≠ pyStrOptDateTime ed2 →
      dynamics_cache_key o t b sd ed ≠ dynamics_cache_key o t b sd ed2)
    ∧ (∀ o o2 t b l, pyStrOptStr o ≠ pyStrOptStr o2 →
      trading_results_cache_key o t b l ≠ trading_results_cache_key o2 t b l)
    ∧ (∀ o t t2 b l, pyStrOptStr t ≠ pyStrOptStr t2 →
      trading_results_cache_key o t b l ≠ trading_results_cache_key o t2 b l)
    ∧ (∀ o t b b2 l, pyStrOptStr b ≠ pyStrOptStr b2 →
      trading_results_cache_key o t b l ≠ trading_results_cache_key o t b2 l) := by
  refine ⟨?_, ?_, ?_, ?_, ?_, ?_, ?_, ?_, ?_, ?_⟩
  · intro o t b l1 l2 h1 h2 hne heq
    apply hne
    have hd := congrArg String.data heq
    simp only [trading_results_cache_key, String.data_append, List.append_assoc] at hd
    repeat replace hd := List.append_cancel_left hd
    exact toString_inj_lt101 h1 h2 hd
  · intro l1 l2 h1 h2 hne heq
    apply hne
    have hd := congrArg String.data heq
    simp only [last_trading_dates_cache_key, String.data_append, List.append_assoc] at hd
    repeat replace hd := List.append_cancel_left hd
    exact toString_inj_lt101 h1 h2 hd
  all_goals
    intros
    rename_i hne
    intro heq
    apply hne
    have hd := congrArg String.data heq
    simp only [dynamics_cache_key, trading_results_cache_key,
      String.data_append, List.append_assoc] at hd
    repeat replace hd := List.append_cancel_left hd
    first
    | exact String.ext (List.append_cancel_right hd)
    | exact String.ext hd

/-- C3 (witness): the amended theorem applied at concrete parameters. -/
theorem claim3_witness :
    dynamics_cache_key (some "A1") none none none none
      ≠ dynamics_cache_key (some "A2") none none none none
    ∧ trading_results_cache_key none none none 3
      ≠ trading_results_cache_key none none none 5 :=
  ⟨claim3_cache_key_injectivity.2.2.1 (some "A1") (some "A2") none none none none
      (by decide),
    claim3_cache_key_injectivity.1 none none none 3 5
      (by decide) (by decide) (by decide)⟩

theorem dtDesc_day_le {a b : PyDateTime} (h : dtDesc a b) : b.day ≤ a.day :=
  Nat.div_le_div_right h

/-- C4 (counterexample). The claim says distinctness is on the calendar date,
so records on the same date collapse to one entry.  The SQL `DISTINCT` runs
on the raw `DateTime` column and `.date()` truncates only afterwards: two
records on day 10 whose stored datetimes differ by 5 microseconds occupy two
result slots, and the result repeats the same calendar date twice. -/
theorem claim4_counterexample :
    crud.get_last_trading_dates
      [sampleRow ⟨10 * usPerDay⟩, sampleRow ⟨10 * usPerDay + 5⟩] 2 = [10, 10]
    ∧ (sampleRow ⟨10 * usPerDay⟩).date.day = (sampleRow ⟨10 * usPerDay + 5⟩).date.day
    ∧ ¬ ([10, 10] : List Nat).Nodup := by
  refine ⟨by decide, by decide, by decide⟩

/-- C4 (amended). The recent-dates query returns up to `limit` calendar
dates, most recent first (non-increasing), each the date of some record in
the store — but distinctness is on the stored *datetime* value, not the date:
dates repeat exactly when records share a calendar date with different
stored times.  When every pair of records sharing a calendar date also
shares the stored datetime, the claimed collapse does hold and the result
is duplicate-free. -/
theorem claim4_recent_dates (db : List SpimexTradingResultAsync) (limit : Nat) :
    (crud.get_last_trading_dates db limit).length ≤ limit
    ∧ (crud.get_last_trading_dates db limit).Sorted (fun a b => b ≤ a)
    ∧ (∀ d ∈ crud.get_last_trading_dates db limit, ∃ r ∈ db, r.date.day = d)
    ∧ ((∀ r ∈ db, ∀ r2 ∈ db, r.date.day = r2.date.day → r.date = r2.date) →
        (crud.get_last_trading_dates db limit).Nodup) := by
  have hmemL : ∀ dt : PyDateTime,
      dt ∈ (((db.map (fun r => r.date)).dedup).insertionSort dtDesc).take limit →
      ∃ r ∈ db, r.date = dt := by
    intro dt hdt
    have h1 : dt ∈ ((db.map (fun r => r.date)).dedup).insertionSort dtDesc :=
      (List.take_sublist _ _).subset hdt
    have h2 : dt ∈ (db.map (fun r => r.date)).dedup :=
      (List.mem_insertionSort dtDesc).1 h1
    have h3 : dt ∈ db.map (fun r => r.date) := List.mem_dedup.1 h2
    obtain ⟨r, hr, hrd⟩ := List.mem_map.1 h3
    exact ⟨r, hr, hrd⟩
  refine ⟨?_, ?_, ?_, ?_⟩
  · unfold crud.get_last_trading_dates
    rw [List.length_map, List.length_take]
    exact Nat.min_le_left _ _
  · unfold crud.get_last_trading_dates
    have hs : List.Sorted dtDesc
        (((db.map (fun r => r.date)).dedup).insertionSort dtDesc) :=
      List.sorted_insertionSort dtDesc _
    exact (hs.sublist (List.take_sublist _ _)).map _ fun a b hab => dtDesc_day_le hab
  · intro d hd
    unfold crud.get_last_trading_dates at hd
    obtain ⟨dt, hdt, hday⟩ := List.mem_map.1 hd
    obtain ⟨r, hr, hrd⟩ := hmemL dt hdt
    exact ⟨r, hr, by rw [hrd, hday]⟩
  · intro hinj
    unfold crud.get_last_trading_dates
    have hnd : (((db.map (fun r => r.date)).dedup).insertionSort dtDesc).Nodup :=
      (List.perm_insertionSort dtDesc _).symm.nodup (List.nodup_dedup _)
    have hndt := hnd.sublist (List.take_sublist limit
      (((db.map (fun r => r.date)).dedup).insertionSort dtDesc))
    refine hndt.map_on ?_
    intro x hx y hy hxy
    obtain ⟨r, hr, hrx⟩ := hmemL x hx
    obtain ⟨r2, hr2, hry⟩ := hmemL y hy
    have := hinj r hr r2 hr2 (by rw [hrx, hry]; exact hxy)
    rw [← hrx, ← hry, this]

/-- C4 (witness): the amended theorem at a concrete two-row store whose rows
lie on distinct calendar days, with the collapse hypothesis discharged
concretely. -/
theorem claim4_witness :
    (crud.get_last_trading_dates [sampleRow ⟨0⟩, sampleRow ⟨usPerDay⟩] 1).length ≤ 1
    ∧ (crud.get_last_trading_dates [sampleRow ⟨0⟩, sampleRow ⟨usPerDay⟩] 1).Nodup :=
  ⟨(claim4_recent_dates [sampleRow ⟨0⟩, sampleRow ⟨usPerDay⟩] 1).1,
    (claim4_recent_dates [sampleRow ⟨0⟩, sampleRow ⟨usPerDay⟩] 1).2.2.2 (by decide)⟩

theorem dynamics_all_iff (oil_id delivery_type_id delivery_basis_id : Option String)
    (start_date end_date : Option PyDateTime) (r : SpimexTradingResultAsync) :
    ((crud.dynamics_filters oil_id delivery_type_id delivery_basis_id
        start_date end_date).all (fun f => f r) = true) ↔
      ((strFilterActive oil_id = true → r.oil_id = oil_id)
        ∧ (strFilterActive delivery_type_id = true →
            r.delivery_type_id = delivery_type_id)
        ∧ (strFilterActive delivery_basis_id = true →
            r.delivery_basis_id = delivery_basis_id)
        ∧ (∀ d, start_date = some d → d.total ≤ r.date.total)
        ∧ (∀ d, end_date = some d → r.date.total ≤ d.total)) := by
  unfold crud.dynamics_filters
  cases start_date <;> cases end_date <;>
    by_cases h1 : strFilterActive oil_id <;>
    by_cases h2 : strFilterActive delivery_type_id <;>
    by_cases h3 : strFilterActive delivery_basis_id <;>
    simp [h1, h2, h3, List.all_append, beq_iff_eq]

theorem trading_results_all_iff
    (oil_id delivery_type_id delivery_basis_id : Option String)
    (r : SpimexTradingResultAsync) :
    ((crud.trading_results_filters oil_id delivery_type_id
        delivery_basis_id).all (fun f => f r) = true) ↔
      ((strFilterActive oil_id = true → r.oil_id = oil_id)
        ∧ (strFilterActive delivery_type_id = true →
            r.delivery_type_id = delivery_type_id)
        ∧ (strFilterActive delivery_basis_id = true →
            r.delivery_basis_id = delivery_basis_id)) := by
  unfold crud.trading_results_filters
  by_cases h1 : strFilterActive oil_id <;>
    by_cases h2 : strFilterActive delivery_type_id <;>
    by_cases h3 : strFilterActive delivery_basis_id <;>
    simp [h1, h2, h3, List.all_append, beq_iff_eq]

/-- C5. For the dynamics query: membership is exactly "in the store and
satisfying every supplied (non-null, non-empty) filter, with inclusive date
bounds", the result is ordered by trading date descending, and with no
filter supplied it is a permutation of the whole store.  For the top-N
query: every returned record is in the store and satisfies every supplied
filter, the result is ordered by trading date descending, bounded by
`limit`, and with no filter supplied it returns `min limit (size of store)`
records. -/
theorem claim5_conjunctive_filters (db : List SpimexTradingResultAsync)
    (oil_id delivery_type_id delivery_basis_id : Option String)
    (start_date end_date : Option PyDateTime) (limit : Nat) :
    (∀ r, r ∈ crud.get_dynamics db oil_id delivery_type_id delivery_basis_id
        start_date end_date ↔
      (r ∈ db
        ∧ (strFilterActive oil_id = true → r.oil_id = oil_id)
        ∧ (strFilterActive delivery_type_id = true →
            r.delivery_type_id = delivery_type_id)
        ∧ (strFilterActive delivery_basis_id = true →
            r.delivery_basis_id = delivery_basis_id)
        ∧ (∀ d, start_date = some d → d.total ≤ r.date.total)
        ∧ (∀ d, end_date = some d → r.date.total ≤ d.total)))
    ∧ (crud.get_dynamics db oil_id delivery_type_id delivery_basis_id
        start_date end_date).Sorted rowDateDesc
    ∧ (strFilterActive oil_id = false → strFilterActive delivery_type_id = false →
        strFilterActive delivery_basis_id = false → start_date = none →
        end_date = none →
        (crud.get_dynamics db oil_id delivery_type_id delivery_basis_id
          start_date end_date).Perm db)
    ∧ (∀ r ∈ crud.get_trading_results db oil_id delivery_type_id
          delivery_basis_id limit,
        r ∈ db
        ∧ (strFilterActive oil_id = true → r.oil_id = oil_id)
        ∧ (strFilterActive delivery_type_id = true →
            r.delivery_type_id = delivery_type_id)
        ∧ (strFilterActive delivery_basis_id = true →
            r.delivery_basis_id = delivery_basis_id))
    ∧ (crud.get_trading_results db oil_id delivery_type_id
        delivery_basis_id limit).Sorted rowDateDesc
    ∧ (crud.get_trading_results db oil_id delivery_type_id
        delivery_basis_id limit).length ≤ limit
    ∧ (strFilterActive oil_id = false → strFilterActive delivery_type_id = false →
        strFilterActive delivery_basis_id = false →
        (crud.get_trading_results db oil_id delivery_type_id
          delivery_basis_id limit).length = min limit db.length) := by
  refine ⟨?_, ?_, ?_, ?_, ?_, ?_, ?_⟩
  · intro r
    unfold crud.get_dynamics
    rw [List.mem_insertionSort, List.mem_filter]
    exact and_congr_right fun _ => dynamics_all_iff _ _ _ _ _ r
  · exact List.sorted_insertionSort rowDateDesc _
  · intro h1 h2 h3 h4 h5
    subst h4; subst h5
    unfold crud.get_dynamics crud.dynamics_filters
    rw [h1, h2, h3]
    simp only [if_neg (by simp : ¬ False = True), Bool.false_eq_true, if_false,
      List.nil_append, List.all_nil, List.filter_true]
    exact List.perm_insertionSort rowDateDesc db
  · intro r hr
    unfold crud.get_trading_results at hr
    have h1 := (List.take_sublist _ _).subset hr
    rw [List.mem_insertionSort, List.mem_filter] at h1
    exact ⟨h1.1, (trading_results_all_iff _ _ _ r).1 h1.2⟩
  · exact (List.sorted_insertionSort rowDateDesc _).sublist (List.take_sublist _ _)
  · unfold crud.get_trading_results
    rw [List.length_take]
    exact Nat.min_le_left _ _
  · intro h1 h2 h3
    unfold crud.get_trading_results crud.trading_results_filters
    rw [h1, h2, h3]
    simp only [Bool.false_eq_true, if_false, List.nil_append, List.all_nil,
      List.filter_true, List.length_take, List.length_insertionSort]

/-- C5 (witness): the theorem applied at a concrete two-row store, with an
oil filter supplied and with no filter supplied. -/
theorem claim5_witness :
    (sampleRow ⟨0⟩ ∈ crud.get_dynamics [sampleRow ⟨0⟩] (some "A1") none none none none ↔
      (sampleRow ⟨0⟩ ∈ [sampleRow ⟨0⟩]
        ∧ (strFilterActive (some "A1") = true → (sampleRow ⟨0⟩).oil_id = some "A1")
        ∧ (strFilterActive none = true → (sampleRow ⟨0⟩).delivery_type_id = none)
        ∧ (strFilterActive none = true → (sampleRow ⟨0⟩).delivery_basis_id = none)
        ∧ (∀ d, (none : Option PyDateTime) = some d → d.total ≤ (sampleRow ⟨0⟩).date.total)
        ∧ (∀ d, (none : Option PyDateTime) = some d → (sampleRow ⟨0⟩).date.total ≤ d.total)))
    ∧ (crud.get_dynamics [sampleRow ⟨0⟩, sampleRow ⟨usPerDay⟩] none none none
        none none).Perm [sampleRow ⟨0⟩, sampleRow ⟨usPerDay⟩]
    ∧ (crud.get_trading_results [sampleRow ⟨0⟩, sampleRow ⟨usPerDay⟩] none none none
        1).length = min 1 ([sampleRow ⟨0⟩, sampleRow ⟨usPerDay⟩].length) :=
  ⟨(claim5_conjunctive_filters [sampleRow ⟨0⟩] (some "A1") none none none none 1).1 _,
    (claim5_conjunctive_filters [sampleRow ⟨0⟩, sampleRow ⟨usPerDay⟩]
      none none none none none 1).2.2.1 rfl rfl rfl rfl rfl,
    (claim5_conjunctive_filters [sampleRow ⟨0⟩, sampleRow ⟨usPerDay⟩]
      none none none none none 1).2.2.2.2.2.2 rfl rfl rfl⟩

theorem mem_redisSet {st : RedisState} {t : Nat} {key val : String} {ttl : Nat}
    {en : RedisEntry} (h : en ∈ (redisSet st t key val ttl).entries) :
    en ∈ st.entries ∨ (en.key = key ∧ en.writeTime = t) := by
  unfold redisSet at h
  rcases List.mem_cons.1 h with h | h
  · right; rw [h]; exact ⟨rfl, rfl⟩
  · exact Or.inl (List.mem_of_mem_filter h)

theorem mem_set_cache_entries {st : RedisState} {t : Nat} {key : String}
    {v : PyValue} {ex : Nat} {en : RedisEntry}
    (h : en ∈ (set_cache st t key v ex).entries) :
    en ∈ st.entries ∨ (en.key = key ∧ en.writeTime = t) := by
  unfold set_cache at h
  split at h
  · exact Or.inl h
  · split at h <;>
      first
      | exact Or.inl h
      | (split at h
         · exact Or.inl h
         · exact mem_redisSet h)

theorem set_cache_reachable (st : RedisState) (t : Nat) (key : String)
    (v : PyValue) (ex : Nat) :
    (set_cache st t key v ex).reachable = st.reachable := by
  unfold set_cache
  split
  · rfl
  · split <;> first | rfl | (split <;> rfl)

theorem flush_cache_reachable (st : RedisState) :
    (flush_cache st).reachable = st.reachable := by
  unfold flush_cache
  split <;> rfl

theorem flush_cache_entries (st : RedisState) (h : st.reachable = true) :
    (flush_cache st).entries = [] := by
  unfold flush_cache
  rw [h]
  rfl

theorem get_cache_some_reachable {st : RedisState} {t : Nat} {key : String}
    {v : PyValue} (h : get_cache st t key = some v) : st.reachable = true := by
  cases hr : st.reachable
  · unfold get_cache at h
    rw [hr] at h
    simp at h
  · rfl

/-- C8. No cache operation propagates a fault: `get_cache` is a total
function returning `none` (absent) when the store is unreachable or the key
is missing, and the raw string when the stored payload is not valid JSON;
`set_cache` and `flush_cache` leave the state unchanged when the store is
unreachable. -/
theorem claim8_cache_degrades (st : RedisState) (t : Nat) (key : String)
    (v : PyValue) (expire : Nat) (s : String) :
    (st.reachable = false → get_cache st t key = none)
    ∧ (redisLookup st t key = none → get_cache st t key = none)
    ∧ (st.reachable = true → redisLookup st t key = some s → (s = "" → False) →
        jsonLoads s = none → get_cache st t key = some (.str s))
    ∧ (st.reachable = false → set_cache st t key v expire = st)
    ∧ (st.reachable = false → flush_cache st = st) := by
  refine ⟨?_, ?_, ?_, ?_, ?_⟩
  · intro h
    unfold get_cache
    rw [h]
    rfl
  · intro h
    unfold get_cache
    rw [h]
    cases st.reachable <;> rfl
  · intro h1 h2 h3 h4
    unfold get_cache
    rw [h1, h2]
    show (if (s == "") = true then none
      else
        match jsonLoads s with
        | some PyValue.null => none
        | some v => some v
        | none => some (PyValue.str s)) = some (PyValue.str s)
    rw [if_neg (by simpa [beq_iff_eq] using h3), h4]
  · intro h
    unfold set_cache
    rw [h]
    rfl
  · intro h
    unfold flush_cache
    rw [h]
    rfl

/-- C8 (witness): the theorem applied to a concrete unreachable store and to
a concrete reachable store holding a non-JSON payload. -/
theorem claim8_witness :
    get_cache ⟨false, []⟩ 0 "k" = none
    ∧ set_cache ⟨false, []⟩ 0 "k" (.str "v") 60 = ⟨false, []⟩
    ∧ flush_cache ⟨false, []⟩ = ⟨false, []⟩
    ∧ get_cache ⟨true, [⟨"k", "garbage", 0, 60⟩]⟩ 1 "k" = some (.str "garbage") :=
  ⟨(claim8_cache_degrades ⟨false, []⟩ 0 "k" (.str "v") 60 "").1 rfl,
    (claim8_cache_degrades ⟨false, []⟩ 0 "k" (.str "v") 60 "").2.2.2.1 rfl,
    (claim8_cache_degrades ⟨false, []⟩ 0 "k" (.str "v") 60 "").2.2.2.2 rfl,
    (claim8_cache_degrades ⟨true, [⟨"k", "garbage", 0, 60⟩]⟩ 1 "k" (.str "v") 60
        "garbage").2.2.1 rfl rfl (by decide) rfl⟩

/-- C9.  The claim matches `set_cache`'s own docstring ("0 = no expiry"),
but the code forwards `ex=0` to the store, which rejects `SET ... EX 0` as
an invalid expire time; the swallowed error leaves the state unchanged, so
nothing is stored and a later read of the key is absent — the value is *not*
retrievable at any later time. -/
theorem claim9_ttl_zero_drops_write :
    set_cache ⟨true, []⟩ 0 "k" (.str "v") 0 = ⟨true, []⟩
    ∧ get_cache (set_cache ⟨true, []⟩ 0 "k" (.str "v") 0) 1000000 "k" = none :=
  ⟨rfl, rfl⟩

/-- C10. A cached empty list is falsy under `if cached:`, so each handler
treats it as a miss: it queries the record store, re-writes the fresh
(possibly empty) serialized result with TTL `get_seconds_until_flush`, and
returns the live result. -/
theorem claim10_empty_list_is_miss (st : RedisState) (now : PyDateTime)
    (db : List SpimexTradingResultAsync) (limit : Nat)
    (oil_id delivery_type_id delivery_basis_id : Option String)
    (start_date end_date : Option PyDateTime) :
    (get_cache st now.total (last_trading_dates_cache_key limit)
        = some (.list []) →
      main.get_last_trading_dates st now db limit
        = .ok (crud.get_last_trading_dates db limit,
            set_cache st now.total (last_trading_dates_cache_key limit)
              (.list ((crud.get_last_trading_dates db limit).map
                (fun d => .str (isoDateOfDay d))))
              (get_seconds_until_flush now)))
    ∧ (get_cache st now.total
          (dynamics_cache_key oil_id delivery_type_id delivery_basis_id
            start_date end_date) = some (.list []) →
      main.get_dynamics st now db oil_id delivery_type_id delivery_basis_id
          start_date end_date
        = .ok (crud.get_dynamics db oil_id delivery_type_id delivery_basis_id
              start_date end_date,
            set_cache st now.total
              (dynamics_cache_key oil_id delivery_type_id delivery_basis_id
                start_date end_date)
              (.list ((crud.get_dynamics db oil_id delivery_type_id
                  delivery_basis_id start_date end_date).map
                tradingResultToPyDict))
              (get_seconds_until_flush now)))
    ∧ (get_cache st now.total
          (trading_results_cache_key oil_id delivery_type_id delivery_basis_id
            limit) = some (.list []) →
      main.get_trading_results st now db oil_id delivery_type_id
          delivery_basis_id limit
        = .ok (crud.get_trading_results db oil_id delivery_type_id
              delivery_basis_id limit,
            set_cache st now.total
              (trading_results_cache_key oil_id delivery_type_id
                delivery_basis_id limit)
              (.list ((crud.get_trading_results db oil_id delivery_type_id
                  delivery_basis_id limit).map tradingResultToPyDict))
              (get_seconds_until_flush now))) := by
  refine ⟨?_, ?_, ?_⟩
  · intro h
    unfold main.get_last_trading_dates
    rw [h]
    rfl
  · intro h
    unfold main.get_dynamics
    rw [h]
    rfl
  · intro h
    unfold main.get_trading_results
    rw [h]
    rfl

/-- C10 (witness): the theorem applied to a concrete store caching `"[]"`
for the dates key. -/
theorem claim10_witness :
    main.get_last_trading_dates ⟨true, [⟨"last_trading_dates:5", "[]", 0, 60⟩]⟩
        ⟨0⟩ [] 5
      = .ok (crud.get_last_trading_dates [] 5,
          set_cache ⟨true, [⟨"last_trading_dates:5", "[]", 0, 60⟩]⟩ 0
            ("last_trading_dates:" ++ toString 5)
            (.list ((crud.get_last_trading_dates [] 5).map
              (fun d => .str (isoDateOfDay d))))
            (get_seconds_until_flush ⟨0⟩)) :=
  (claim10_empty_list_is_miss ⟨true, [⟨"last_trading_dates:5", "[]", 0, 60⟩]⟩
    ⟨0⟩ [] 5 none none none none none).1 rfl

/-- C6 (counterexample). The claim says *every* endpoint flushes and answers
live whenever a cached value fails to parse.  `/get_last_trading_dates`
catches only `ValueError`: a cached JSON list with a non-string element
(here `"[1]"`) raises `TypeError` in `datetime.fromisoformat`, which
propagates — no flush, no live answer, the request fails. -/
theorem claim6_counterexample :
    get_cache ⟨true, [⟨"last_trading_dates:5", "[1]", 0, 60⟩]⟩ 0
        "last_trading_dates:5" = some (.list [.int 1])
    ∧ parseDateListFromCache (.list [.int 1]) = .error .typeError
    ∧ main.get_last_trading_dates ⟨true, [⟨"last_trading_dates:5", "[1]", 0, 60⟩]⟩
        ⟨0⟩ [] 5 = .error .typeError :=
  ⟨rfl, rfl, rfl⟩

/-- C6 (amended). For `/get_dynamics` and `/get_trading_results`, *any*
failure to rebuild the cached value triggers `flush_cache` (a full
`FLUSHALL`) followed by a live query, and afterwards no key other than the
freshly re-written one is cached.  For `/get_last_trading_dates` this holds
only for `ValueError`-class failures (e.g. non-ISO strings); a cached value
whose elements are not strings raises an uncaught `TypeError` and the
request fails with a server error instead. -/
theorem claim6_corrupt_cache_selfheal (st : RedisState) (now : PyDateTime)
    (db : List SpimexTradingResultAsync) (limit : Nat)
    (oil_id delivery_type_id delivery_basis_id : Option String)
    (start_date end_date : Option PyDateTime) (v : PyValue) (e : PyErr) :
    (get_cache st now.total
        (dynamics_cache_key oil_id delivery_type_id delivery_basis_id
          start_date end_date) = some v →
      pyTruthy v = true → parseTradingResultList v = .error e →
      ∃ st2,
        main.get_dynamics st now db oil_id delivery_type_id delivery_basis_id
            start_date end_date
          = .ok (crud.get_dynamics db oil_id delivery_type_id
              delivery_basis_id start_date end_date, st2)
        ∧ ∀ en ∈ st2.entries,
            en.key = dynamics_cache_key oil_id delivery_type_id
              delivery_basis_id start_date end_date)
    ∧ (get_cache st now.total
        (trading_results_cache_key oil_id delivery_type_id delivery_basis_id
          limit) = some v →
      pyTruthy v = true → parseTradingResultList v = .error e →
      ∃ st2,
        main.get_trading_results st now db oil_id delivery_type_id
            delivery_basis_id limit
          = .ok (crud.get_trading_results db oil_id delivery_type_id
              delivery_basis_id limit, st2)
        ∧ ∀ en ∈ st2.entries,
            en.key = trading_results_cache_key oil_id delivery_type_id
              delivery_basis_id limit)
    ∧ (get_cache st now.total (last_trading_dates_cache_key limit) = some v →
      pyTruthy v = true → parseDateListFromCache v = .error .valueError →
      ∃ st2,
        main.get_last_trading_dates st now db limit
          = .ok (crud.get_last_trading_dates db limit, st2)
        ∧ ∀ en ∈ st2.entries, en.key = last_trading_dates_cache_key limit)
    ∧ (get_cache st now.total (last_trading_dates_cache_key limit) = some v →
      pyTruthy v = true → parseDateListFromCache v = .error .typeError →
      main.get_last_trading_dates st now db limit = .error .typeError) := by
  refine ⟨?_, ?_, ?_, ?_⟩
  · intro hget htru hparse
    have hfl : (flush_cache st).entries = [] :=
      flush_cache_entries st (get_cache_some_reachable hget)
    refine ⟨set_cache (flush_cache st) now.total
        (dynamics_cache_key oil_id delivery_type_id delivery_basis_id
          start_date end_date)
        (PyValue.list ((crud.get_dynamics db oil_id delivery_type_id
            delivery_basis_id start_date end_date).map tradingResultToPyDict))
        (get_seconds_until_flush now), ?_, ?_⟩
    · unfold main.get_dynamics
      rw [hget]
      simp only [htru, hparse, if_true]
      rfl
    · intro en hen
      rcases mem_set_cache_entries hen with h | ⟨hk, _⟩
      · rw [hfl] at h
        exact absurd h (List.not_mem_nil en)
      · exact hk
  · intro hget htru hparse
    have hfl : (flush_cache st).entries = [] :=
      flush_cache_entries st (get_cache_some_reachable hget)
    refine ⟨set_cache (flush_cache st) now.total
        (trading_results_cache_key oil_id delivery_type_id delivery_basis_id
          limit)
        (PyValue.list ((crud.get_trading_results db oil_id delivery_type_id
            delivery_basis_id limit).map tradingResultToPyDict))
        (get_seconds_until_flush now), ?_, ?_⟩
    · unfold main.get_trading_results
      rw [hget]
      simp only [htru, hparse, if_true]
      rfl
    · intro en hen
      rcases mem_set_cache_entries hen with h | ⟨hk, _⟩
      · rw [hfl] at h
        exact absurd h (List.not_mem_nil en)
      · exact hk
  · intro hget htru hparse
    have hfl : (flush_cache st).entries = [] :=
      flush_cache_entries st (get_cache_some_reachable hget)
    refine ⟨set_cache (flush_cache st) now.total
        (last_trading_dates_cache_key limit)
        (PyValue.list ((crud.get_last_trading_dates db limit).map
          (fun d => PyValue.str (isoDateOfDay d))))
        (get_seconds_until_flush now), ?_, ?_⟩
    · unfold main.get_last_trading_dates
      rw [hget]
      simp only [htru, hparse, if_true]
      rfl
    · intro en hen
      rcases mem_set_cache_entries hen with h | ⟨hk, _⟩
      · rw [hfl] at h
        exact absurd h (List.not_mem_nil en)
      · exact hk
  · intro hget htru hparse
    unfold main.get_last_trading_dates
    rw [hget]
    simp only [htru, hparse, if_true]

/-- C6 (witness): the amended theorem applied to concrete corrupt caches —
a non-JSON payload for dynamics and a non-ISO string for the dates key. -/
theorem claim6_witness :
    (∃ st2,
      main.get_dynamics
          ⟨true, [⟨"dynamics:None:None:None:None:None", "garbage", 0, 60⟩]⟩
          ⟨0⟩ [] none none none none none
        = .ok (crud.get_dynamics [] none none none none none, st2)
      ∧ ∀ en ∈ st2.entries,
          en.key = dynamics_cache_key none none none none none)
    ∧ (∃ st2,
      main.get_last_trading_dates
          ⟨true, [⟨"last_trading_dates:5", "bad-date", 0, 60⟩]⟩ ⟨0⟩ [] 5
        = .ok (crud.get_last_trading_dates [] 5, st2)
      ∧ ∀ en ∈ st2.entries, en.key = last_trading_dates_cache_key 5) :=
  ⟨(claim6_corrupt_cache_selfheal
      ⟨true, [⟨"dynamics:None:None:None:None:None", "garbage", 0, 60⟩]⟩
      ⟨0⟩ [] 5 none none none none none (.str "garbage") .typeError).1
      rfl rfl rfl,
    (claim6_corrupt_cache_selfheal
      ⟨true, [⟨"last_trading_dates:5", "bad-date", 0, 60⟩]⟩
      ⟨0⟩ [] 5 none none none none none (.str "bad-date") .typeError).2.2.1
      rfl rfl rfl⟩

theorem applyCacheEvent_reachable (st : RedisState) (ev : CacheEvent) :
    (applyCacheEvent st ev).reachable = st.reachable := by
  cases ev with
  | write now key v =>
    exact set_cache_reachable st now.total key v (get_seconds_until_flush now)
  | flushAll now => exact flush_cache_reachable st

/-- Every entry of the state after a trace either survived from the initial
state with no flush in the trace at all, or was written by some write event
not followed by any flush. -/
theorem runCacheTrace_entry_source (evs : List CacheEvent) (st : RedisState)
    (hr : st.reachable = true) (e : RedisEntry)
    (he : e ∈ (runCacheTrace st evs).entries) :
    (e ∈ st.entries ∧ ∀ nf, CacheEvent.flushAll nf ∉ evs)
    ∨ ∃ l1 now k v l2, evs = l1 ++ CacheEvent.write now k v :: l2
        ∧ e.writeTime = now.total ∧ ∀ nf, CacheEvent.flushAll nf ∉ l2 := by
  induction evs generalizing st with
  | nil =>
    exact Or.inl ⟨he, by simp⟩
  | cons ev rest ih =>
    have hr1 : (applyCacheEvent st ev).reachable = true := by
      rw [applyCacheEvent_reachable]; exact hr
    rcases ih (applyCacheEvent st ev) hr1 he with
      ⟨hmem, hnf⟩ | ⟨l1, now, k, v, l2, heq, hwt, hnf⟩
    · cases ev with
      | flushAll nf0 =>
        exfalso
        have hemp : (applyCacheEvent st (CacheEvent.flushAll nf0)).entries = [] := by
          show (flush_cache st).entries = []
          exact flush_cache_entries st hr
        rw [hemp] at hmem
        exact absurd hmem (List.not_mem_nil e)
      | write now k v =>
        rcases mem_set_cache_entries hmem with hold | ⟨_, hwt⟩
        · left
          refine ⟨hold, fun nf hmem2 => ?_⟩
          rcases List.mem_cons.1 hmem2 with h | h
          · exact CacheEvent.noConfusion h
          · exact hnf nf h
        · right
          exact ⟨[], now, k, v, rest, rfl, hwt, fun nf h => hnf nf h⟩
    · right
      refine ⟨ev :: l1, now, k, v, l2, ?_, hwt, hnf⟩
      rw [heq]
      rfl

/-- C7. In any cache timeline starting from an empty reachable store in
which every write uses `get_seconds_until_flush` as its TTL and the
background loop's flush fires after any write whose next cutover lies at or
before the read time, every entry a read at time `tread` could see was
written at or after the most recent cutover: no cutover instant `≤ tread`
lies strictly after the entry's write time.  In particular no response is
ever built from data cached before the most recent cutover (a fortiori, not
for longer than one day after it). -/
theorem claim7_no_stale_reads (evs : List CacheEvent) (tread : Nat)
    (hloop : ∀ l1 now k v l2, evs = l1 ++ CacheEvent.write now k v :: l2 →
      nextCutover now.total ≤ tread → ∃ nf, CacheEvent.flushAll nf ∈ l2) :
    ∀ e ∈ (runCacheTrace ⟨true, []⟩ evs).entries, redisVisible tread e = true →
      ∀ c, IsCutover c → c ≤ tread → c ≤ e.writeTime := by
  intro e he _hvis c hc hct
  by_contra hlt
  push_neg at hlt
  rcases runCacheTrace_entry_source evs ⟨true, []⟩ rfl e he with
    ⟨hmem, _⟩ | ⟨l1, now, k, v, l2, heq, hwt, hnf⟩
  · exact absurd hmem (List.not_mem_nil e)
  · have h1 : nextCutover now.total ≤ c :=
      nextCutover_least now.total c hc (by omega)
    obtain ⟨nf, hnf2⟩ := hloop l1 now k v l2 heq (le_trans h1 hct)
    exact hnf nf hnf2

/-- C7 (witness): a concrete one-write trace (written one second after day
0's cutover, read one second later); the loop hypothesis is discharged
because the write's next cutover lies beyond the read time, and the
conclusion is instantiated at day 0's cutover instant. -/
theorem claim7_witness :
    (⟨"k", "v", 51061000000, 86399⟩ : RedisEntry)
      ∈ (runCacheTrace ⟨true, []⟩
          [CacheEvent.write ⟨51061000000⟩ "k" (.str "v")]).entries
    ∧ 51060000000 ≤ (⟨"k", "v", 51061000000, 86399⟩ : RedisEntry).writeTime := by
  have hmem : (⟨"k", "v", 51061000000, 86399⟩ : RedisEntry)
      ∈ (runCacheTrace ⟨true, []⟩
          [CacheEvent.write ⟨51061000000⟩ "k" (.str "v")]).entries := by
    decide
  refine ⟨hmem, ?_⟩
  refine claim7_no_stale_reads
      [CacheEvent.write ⟨51061000000⟩ "k" (.str "v")] 51062000000
      ?_ _ hmem (by decide) 51060000000 (by decide) (by decide)
  intro l1 now k v l2 heq hnext
  exfalso
  rcases l1 with _ | ⟨a, l1⟩
  · rw [List.nil_append] at heq
    injection heq with h1 _h2
    injection h1 with hnow _hk _hv
    rw [← hnow] at hnext
    revert hnext
    decide
  · rw [List.cons_append] at heq
    injection heq with _h1 h2
    exact absurd h2.symm (List.append_ne_nil_of_right_ne_nil l1 (by simp))

end Spimex
